import Mathlib

/-!
Verification of the webnet TCP networking library.

Shallow embedding of the repository's core components:

* `net.detail` platform-error classification (`include/net/detail/platform_error.h`,
  POSIX branch),
* the descriptor holder (`include/net/detail/socket_handle.h`),
* the RAII socket base with its move semantics (`src/detail/socket.cpp`) and
  its raw non-blocking send/recv loops (`src/core/detail/socket_posix.cpp`),
* the TCP stream socket operations (`src/protocol/tcp/tcp_socket.cpp`),
* the lazy `task<T>` coroutine primitive (`include/net/detail/task.h`),
* the `TcpConnection` asynchronous state machine
  (`src/protocol/tcp/tcp_connection.cpp`),
* the endpoint / IP-address value types (`src/core/endpoint.cpp`,
  `src/core/ip_address.cpp`).

Interaction with the operating system is modelled by explicit traces: every
OS-level call (`::send`, `::recv`, `::accept`) consumes the next element of a
list of prescribed outcomes, so the retry loops of the source become structural
recursion over the trace.  A loop that exhausts its trace without returning is
modelled as `Option.none` (the C++ loop would still be running).
-/

set_option autoImplicit false

namespace Webnet

/-! ## Platform error classification (include/net/detail/platform_error.h, POSIX) -/

/-- Linux errno value EINTR. -/
def EINTR : Nat := 4

/-- Linux errno value EAGAIN. -/
def EAGAIN : Nat := 11

/-- Linux errno value EWOULDBLOCK (same numeric value as EAGAIN on Linux). -/
def EWOULDBLOCK : Nat := 11

/-- Linux errno value EINPROGRESS. -/
def EINPROGRESS : Nat := 115

/-- Embeds `net::detail::is_interrupted` (POSIX branch): `err == EINTR`. -/
def is_interrupted (err : Nat) : Bool := err == EINTR

/-- Embeds `net::detail::is_would_block` (POSIX branch):
`err == EAGAIN || err == EWOULDBLOCK`. -/
def is_would_block (err : Nat) : Bool := err == EAGAIN || err == EWOULDBLOCK

/-- Embeds `net::detail::is_in_progress` (POSIX branch): `err == EINPROGRESS`. -/
def is_in_progress (err : Nat) : Bool := err == EINPROGRESS

/-! ## Socket flags (include/net/detail/socket_flags.h) -/

/-- Embeds `SocketFlags::AddressFamily`. -/
inductive AddressFamily where
  | IPV4
  | IPV6
  deriving DecidableEq, Repr

/-- Embeds `SocketFlags::SocketType`. -/
inductive SockKind where
  | Stream
  | Dgram
  deriving DecidableEq, Repr

/-- Embeds `SocketFlags::ProtocolType`. -/
inductive ProtocolType where
  | TCP
  | UDP
  deriving DecidableEq, Repr

/-- Embeds `SocketFlags::BlockingType`. -/
inductive BlockingType where
  | NonBlocking
  | Blocking
  deriving DecidableEq, Repr

/-- Embeds `SocketFlags::InheritableType`. -/
inductive InheritableType where
  | NonInheritable
  | Inheritable
  deriving DecidableEq, Repr

/-! ## Descriptor holder (include/net/detail/socket_handle.h) -/

/-- Embeds `SocketDescriptorHandle::Invalid` (POSIX: the int -1). -/
def invalidHandle : Int := -1

/-- Embeds `SocketDescriptorHandle`: a native handle value with the invalid
sentinel as default. -/
structure SocketDescriptorHandle where
  value : Int := invalidHandle
  deriving DecidableEq, Repr

/-- Embeds `SocketDescriptorHandle::isValid`. -/
def SocketDescriptorHandle.isValid (h : SocketDescriptorHandle) : Bool :=
  h.value != invalidHandle

/-- Embeds `SocketDescriptorHandle::releaseHandle`: returns the raw handle and
the holder afterwards (set to invalid without closing). -/
def SocketDescriptorHandle.releaseHandle (h : SocketDescriptorHandle) :
    Int × SocketDescriptorHandle :=
  (h.value, { value := invalidHandle })

/-! ## Socket RAII base (include/net/detail/socket.h, src/detail/socket.cpp) -/

/-- Embeds the state of `net::detail::Socket`: an owned descriptor plus the
configuration record fixed at creation. -/
structure Socket where
  handle : SocketDescriptorHandle
  address_family : AddressFamily
  socket_type : SockKind
  protocol_type : ProtocolType
  blocking : BlockingType
  inheritable : InheritableType
  deriving DecidableEq, Repr

/-- Embeds `Socket::is_valid`. -/
def Socket.is_valid (s : Socket) : Bool := s.handle.isValid

/-- Embeds `Socket::native_handle`. -/
def Socket.native_handle (s : Socket) : Int := s.handle.value

/-- Embeds `Socket::close` (socket_posix.cpp): calls `::close(handle_)` and sets
the holder to invalid.  Returns the new state and the handle value passed to
the OS `close` call (the source performs the call unconditionally, even on an
already-invalid handle). -/
def Socket.close (s : Socket) : Socket × Int :=
  ({ s with handle := { value := invalidHandle } }, s.handle.value)

/-- Embeds `Socket::Socket(Socket&&)` (src/detail/socket.cpp): the target copies
every configuration field and takes the descriptor via `releaseHandle`; returns
`(constructed, source after the move)`. -/
def Socket.moveConstruct (other : Socket) : Socket × Socket :=
  let (raw, released) := other.handle.releaseHandle
  ({ other with handle := { value := raw } }, { other with handle := released })

/-- Embeds `Socket::operator=(Socket&&)` (src/detail/socket.cpp) for distinct
objects (`this != &other`): first `close()` on the target, then the
configuration fields are copied and the descriptor is taken via
`releaseHandle`.  Returns `(new target, new source, handles passed to ::close)`. -/
def Socket.moveAssign (target other : Socket) : Socket × Socket × List Int :=
  let (_, closedHandle) := target.close
  let (raw, released) := other.handle.releaseHandle
  ({ other with handle := { value := raw } },
   { other with handle := released },
   [closedHandle])

/-! ## Raw send / recv (src/core/detail/socket_posix.cpp)

Each iteration of the `for (;;)` loop performs one OS call; the trace lists the
outcomes of the successive calls.  `errno` is threaded through: a failing call
sets it, a successful call leaves it unchanged. -/

/-- Outcome of one OS-level `::send` / `::recv` call: a non-negative byte count,
or -1 with the given errno. -/
inductive SysResult where
  | ok (n : Nat)
  | err (e : Nat)
  deriving DecidableEq, Repr

/-- Errors thrown by the socket layer: `std::runtime_error` on an invalid
socket, or `std::system_error` carrying the platform code. -/
inductive SockError where
  | invalidSocket (msg : String)
  | systemError (code : Nat) (msg : String)
  deriving DecidableEq, Repr

/-- Embeds the retry loop of `Socket::raw_send` (socket_posix.cpp lines
113-139).  Arguments: blocking mode of the socket, current errno, trace of OS
call outcomes.  Returns `none` when the trace is exhausted with the loop still
running, otherwise the function result (or thrown error) together with the
errno value at return. -/
def raw_send_loop (blocking : BlockingType) :
    Nat → List SysResult → Option (Except SockError Nat × Nat)
  | _, [] => none
  | errno, SysResult.ok n :: _ => some (Except.ok n, errno)
  | _, SysResult.err e :: rest =>
    if is_interrupted e then
      raw_send_loop blocking e rest
    else if is_would_block e then
      if blocking == BlockingType.NonBlocking then
        some (Except.ok 0, e)
      else
        raw_send_loop blocking e rest
    else
      some (Except.error (SockError.systemError e "send() failed"), e)

/-- Embeds `Socket::raw_send` (socket_posix.cpp lines 108-140): throws
`std::runtime_error` on an invalid socket, otherwise runs the retry loop. -/
def raw_send (s : Socket) (errno : Nat) (trace : List SysResult) :
    Option (Except SockError Nat × Nat) :=
  if !s.is_valid then
    some (Except.error (SockError.invalidSocket "send on invalid socket"), errno)
  else
    raw_send_loop s.blocking errno trace

/-- Embeds the retry loop of `Socket::raw_recv` (socket_posix.cpp lines
147-167); identical control flow to the send loop, with the recv failure
message. -/
def raw_recv_loop (blocking : BlockingType) :
    Nat → List SysResult → Option (Except SockError Nat × Nat)
  | _, [] => none
  | errno, SysResult.ok n :: _ => some (Except.ok n, errno)
  | _, SysResult.err e :: rest =>
    if is_interrupted e then
      raw_recv_loop blocking e rest
    else if is_would_block e then
      if blocking == BlockingType.NonBlocking then
        some (Except.ok 0, e)
      else
        raw_recv_loop blocking e rest
    else
      some (Except.error (SockError.systemError e "recv() failed"), e)

/-- Embeds `Socket::raw_recv` (socket_posix.cpp lines 142-168). -/
def raw_recv (s : Socket) (errno : Nat) (trace : List SysResult) :
    Option (Except SockError Nat × Nat) :=
  if !s.is_valid then
    some (Except.error (SockError.invalidSocket "recv invalid socket"), errno)
  else
    raw_recv_loop s.blocking errno trace

/-! ## TCP stream socket (src/protocol/tcp/tcp_socket.cpp) -/

/-- Embeds the platform constant SOMAXCONN (Linux value since 5.4). -/
def SOMAXCONN : Nat := 4096

/-- Errors thrown by the TCP socket layer: `std::logic_error` on an empty
socket, or `std::system_error` carrying the platform code. -/
inductive TcpError where
  | logicError (msg : String)
  | systemError (code : Nat) (msg : String)
  deriving DecidableEq, Repr

/-- Embeds `TcpSocket::listen` (tcp_socket.cpp lines 62-70): throws a logic
error on an invalid socket; otherwise the backlog argument is handed to the OS
`::listen` call.  The returned value records the backlog passed to the OS. -/
def TcpSocket.listen (s : Socket) (backlog : Nat) : Except TcpError Nat :=
  if !s.is_valid then
    Except.error (TcpError.logicError "listen on invalid socket")
  else
    Except.ok backlog

/-- Embeds the default argument of `TcpSocket::listen(int backlog = SOMAXCONN)`
(include/net/tcp_socket.h line 89). -/
def TcpSocket.listen_default_backlog : Nat := SOMAXCONN

/-- Modelled from the spec: the sentinel-empty socket produced by
`TcpSocket(nullptr)` on would-block in `TcpSocket::accept`.  The constructor
taking `nullptr` lives in the header `net/protocol/tcp/tcp_socket.h`, which is
not part of the sources; per the spec, accept then "returns an empty socket
(sentinel) so the async layer can suspend", so the handle is the invalid
sentinel and the configuration uses the public constructor's defaults
(IPv4, stream, TCP, blocking, inheritable). -/
def emptyTcpSocket : Socket :=
  { handle := { value := invalidHandle }
    address_family := AddressFamily.IPV4
    socket_type := SockKind.Stream
    protocol_type := ProtocolType.TCP
    blocking := BlockingType.Blocking
    inheritable := InheritableType.Inheritable }

/-- Outcome of one OS-level `::accept` call: a new non-negative descriptor, or
-1 with the given errno. -/
inductive AcceptSysResult where
  | ok (fd : Nat)
  | err (e : Nat)
  deriving DecidableEq, Repr

/-- Embeds `TcpSocket::accept` (tcp_socket.cpp lines 72-91).  One iteration of
the `for (;;)` loop per trace element.  On a successful OS accept the source
constructs `TcpSocket(sock, AddressFamily::IPV4, BlockingType::NonBlocking,
inheritable())` — the address family is the literal IPV4, the blocking flag the
literal NonBlocking, and the inheritable flag the listener's.  On would-block
it returns the sentinel-empty socket; on interrupted it retries; otherwise it
throws a system error.  Returns `none` when the trace is exhausted with the
loop still running. -/
def TcpSocket.accept (listener : Socket) :
    List AcceptSysResult → Option (Except TcpError Socket)
  | [] => none
  | AcceptSysResult.ok fd :: _ =>
    some (Except.ok
      { handle := { value := (fd : Int) }
        address_family := AddressFamily.IPV4
        socket_type := SockKind.Stream
        protocol_type := ProtocolType.TCP
        blocking := BlockingType.NonBlocking
        inheritable := listener.inheritable })
  | AcceptSysResult.err e :: rest =>
    if is_interrupted e then
      TcpSocket.accept listener rest
    else if is_would_block e then
      some (Except.ok emptyTcpSocket)
    else
      some (Except.error (TcpError.systemError e "tcp accept failed"))

/-! ## TCP acceptor (include/net/protocol/tcp/tcp_acceptor.h) -/

/-- Embeds `TcpAcceptor::listen` (tcp_acceptor.h line 87): the body is
`socket_.listen(SOMAXCONN)` — the `backlog` parameter is not forwarded. -/
def TcpAcceptor.listen (s : Socket) (_backlog : Nat) : Except TcpError Nat :=
  TcpSocket.listen s SOMAXCONN

/-- Embeds the default argument of `TcpAcceptor::listen(int backlog = SOMAXCONN)`
(tcp_acceptor.h line 87). -/
def TcpAcceptor.listen_default_backlog : Nat := SOMAXCONN

/-! ## TcpConnection (include/net/protocol/tcp/tcp_connection.h,
src/protocol/tcp/tcp_connection.cpp)

Continuations (`std::coroutine_handle<>`) are modelled as natural-number
identifiers; a waiter slot is an `Option Nat` (the default-constructed handle
is null).  Each operation returns the new connection state together with the
list of continuations it resumed.  The endpoint members do not participate in
any state transition and are not modelled. -/

/-- Embeds the mutable state of `TcpConnection`: the owned socket, the two
waiter slots, the pending-write byte buffer, and the closed flag. -/
structure TcpConnection where
  socket : Socket
  read_awaiting : Option Nat := none
  write_awaiting : Option Nat := none
  write_buffer : List Nat := []
  closed : Bool := false
  deriving DecidableEq, Repr

/-- Embeds the `TcpConnection` constructor (tcp_connection.h lines 30-32): the
waiter slots start null, `write_buffer_` is a default-constructed (empty)
vector, and `closed_` starts false. -/
def TcpConnection.make (socket : Socket) : TcpConnection :=
  { socket := socket }

/-- Embeds `TcpConnection::close` (tcp_connection.cpp lines 120-125). -/
def TcpConnection.doClose (c : TcpConnection) : TcpConnection :=
  if c.closed then c
  else { c with closed := true, socket := (c.socket.close).1 }

/-- Embeds `TcpConnection::notify_readable` (tcp_connection.cpp lines 91-98):
if a read-waiter is recorded, clear the slot and resume it. -/
def TcpConnection.notify_readable (c : TcpConnection) : TcpConnection × List Nat :=
  match c.read_awaiting with
  | some h => ({ c with read_awaiting := none }, [h])
  | none => (c, [])

/-- Embeds `TcpConnection::notify_writable` (tcp_connection.cpp lines 100-118).
If the pending-write buffer is empty it returns at once.  Otherwise
`socket_.send(write_buffer_)` runs; its completed outcome is supplied as
`sendOutcome` (a byte count, or the exception it threw).  On a count the first
`n` buffered bytes are erased and, if the buffer is now empty and a
write-waiter is recorded, the waiter is cleared and resumed; on an exception
the connection is closed. -/
def TcpConnection.notify_writable (c : TcpConnection)
    (sendOutcome : Except SockError Nat) : TcpConnection × List Nat :=
  if c.write_buffer.isEmpty then (c, [])
  else
    match sendOutcome with
    | Except.ok n =>
      let buf := c.write_buffer.drop n
      if buf.isEmpty then
        match c.write_awaiting with
        | some h =>
          ({ c with write_buffer := buf, write_awaiting := none }, [h])
        | none => ({ c with write_buffer := buf }, [])
      else ({ c with write_buffer := buf }, [])
    | Except.error _ => (c.doClose, [])

/-- Embeds `ReadAwaiter::await_suspend` inside `TcpConnection::async_read`
(tcp_connection.cpp lines 33-35): stores the current continuation in the
read-waiter slot. -/
def TcpConnection.installReadWaiter (c : TcpConnection) (h : Nat) : TcpConnection :=
  { c with read_awaiting := some h }

/-- Embeds `WriteAwaiter::await_suspend` as it appears in both
`TcpConnection::async_write` (lines 74-76) and `TcpConnection::async_connect`
(lines 141-143): stores the current continuation in the write-waiter slot. -/
def TcpConnection.installWriteWaiter (c : TcpConnection) (h : Nat) : TcpConnection :=
  { c with write_awaiting := some h }

/-- One connection-state transition: the state mutations performed by the
coroutine bodies (waiter installation on suspension) and by the externally
driven entry points.  Every mutation of a `TcpConnection` in
tcp_connection.cpp is one of these. -/
inductive ConnOp where
  | readSuspend (h : Nat)
  | writeSuspend (h : Nat)
  | connectSuspend (h : Nat)
  | notifyReadable
  | notifyWritable (sendOutcome : Except SockError Nat)
  | close
  deriving Repr

/-- Applies one transition, returning the new state and the resumed
continuations. -/
def ConnOp.apply (c : TcpConnection) : ConnOp → TcpConnection × List Nat
  | ConnOp.readSuspend h => (c.installReadWaiter h, [])
  | ConnOp.writeSuspend h => (c.installWriteWaiter h, [])
  | ConnOp.connectSuspend h => (c.installWriteWaiter h, [])
  | ConnOp.notifyReadable => c.notify_readable
  | ConnOp.notifyWritable outcome => c.notify_writable outcome
  | ConnOp.close => (c.doClose, [])

/-- Runs a sequence of connection-state transitions from a starting state. -/
def TcpConnection.run (c : TcpConnection) : List ConnOp → TcpConnection
  | [] => c
  | op :: ops => TcpConnection.run (op.apply c).1 ops

/-! ## The async_read / async_write loop bodies (tcp_connection.cpp)

In the source, `auto received = socket_.receive(buffer)` has type
`std::size_t` (TcpSocket::receive forwards raw_recv), so `received` is a `Nat`
here, and `int sent = socket_.send(remaining)` narrows a `std::size_t` count to
`int`.  One loop iteration is a function of the receive/send result and of the
value `detail::last_socket_error()` reads afterwards. -/

/-- What one iteration of the `async_read` loop does. -/
inductive ReadStep where
  | complete (n : Nat)
  | suspend
  | threwSocket (e : SockError)
  | threw (msg : String)
  deriving DecidableEq, Repr

/-- Embeds the body of the `while (true)` loop of `TcpConnection::async_read`
(tcp_connection.cpp lines 11-46), given the value of `received` and the last
socket error.  The branches mirror the source in order: `received > 0`
completes with the count; `received == 0` completes with 0; otherwise the error
is classified, suspending on would-block and throwing
`std::runtime_error("recv failed")` on anything else. -/
def async_read_step (received : Nat) (lastError : Nat) : ReadStep :=
  if received > 0 then ReadStep.complete received
  else if received == 0 then ReadStep.complete 0
  else if is_would_block lastError then ReadStep.suspend
  else ReadStep.threw "recv failed"

/-- One full iteration of `async_read` including the `socket_.receive` call:
`raw_recv` runs on the given OS trace; an exception it throws propagates out of
the coroutine body, otherwise the loop body classifies the result. -/
def async_read_iter (s : Socket) (errno : Nat) (trace : List SysResult) :
    Option ReadStep :=
  match raw_recv s errno trace with
  | none => none
  | some (Except.error e, _) => some (ReadStep.threwSocket e)
  | some (Except.ok n, errno') => some (async_read_step n errno')

/-- What one iteration of the `async_write` loop does. -/
inductive WriteStep where
  | completeAll
  | advance (sent : Nat)
  | suspend
  | threwSocket (e : SockError)
  | threw (msg : String)
  deriving DecidableEq, Repr

/-- Embeds the body of the `while (!remaining.empty())` loop of
`TcpConnection::async_write` (tcp_connection.cpp lines 52-86), given the value
of `sent` and the last socket error: `sent > 0` advances the remaining suffix;
`sent == 0` throws `std::runtime_error("connection closed")`; otherwise the
error is classified, suspending on would-block and throwing
`std::runtime_error("send failed")` on anything else. -/
def async_write_step (sent : Nat) (lastError : Nat) : WriteStep :=
  if sent > 0 then WriteStep.advance sent
  else if sent == 0 then WriteStep.threw "connection closed"
  else if is_would_block lastError then WriteStep.suspend
  else WriteStep.threw "send failed"

/-- One full iteration of `async_write` including the loop condition and the
`socket_.send` call: with no remaining bytes the loop exits and the task
completes; otherwise `raw_send` runs on the given OS trace and the loop body
classifies its result (an exception propagates out of the coroutine body). -/
def async_write_iter (s : Socket) (remaining : Nat) (errno : Nat)
    (trace : List SysResult) : Option WriteStep :=
  if remaining == 0 then some WriteStep.completeAll
  else
    match raw_send s errno trace with
    | none => none
    | some (Except.error e, _) => some (WriteStep.threwSocket e)
    | some (Except.ok n, errno') => some (async_write_step n errno')

/-- A valid non-blocking connected TCP socket, as produced for the async layer
(concrete instance used in counterexamples). -/
def nbSocket : Socket :=
  { handle := { value := 5 }
    address_family := AddressFamily.IPV4
    socket_type := SockKind.Stream
    protocol_type := ProtocolType.TCP
    blocking := BlockingType.NonBlocking
    inheritable := InheritableType.Inheritable }

/-! ## task of T (include/net/detail/task.h)

A coroutine frame is modelled by the number of intermediate suspensions of its
body (the coroutine reaches its final suspension after `suspensions + 1`
resumes) together with the promise contents it stores on completion: the value
slot filled by `return_value` and the exception slot filled by
`unhandled_exception` (exceptions are modelled by their message).  Allowing
both slots to be empty at completion covers the defensive
"task has no result" branch of `task<T>::get`. -/

/-- A coroutine body: resumes needed beyond the first, and the promise contents
at final suspension. -/
structure Coroutine (T : Type) where
  suspensions : Nat
  finalValue : Option T
  finalException : Option String
  deriving Repr

/-- A coroutine frame in flight: the body plus how often it has been resumed. -/
structure CoroState (T : Type) where
  coro : Coroutine T
  resumed : Nat
  deriving Repr

/-- Embeds `handle_.done()`: the frame has reached its final suspension. -/
def CoroState.done {T : Type} (st : CoroState T) : Bool :=
  st.coro.suspensions + 1 ≤ st.resumed

/-- Embeds `handle_.resume()`. -/
def CoroState.resume {T : Type} (st : CoroState T) : CoroState T :=
  { st with resumed := st.resumed + 1 }

/-- Promise contents readable through `handle_.promise()`: `value_` and
`exception_`.  Before the frame is done neither slot is set. -/
structure Promise (T : Type) where
  value : Option T
  exception : Option String
  deriving Repr

/-- The promise contents visible at a given frame state. -/
def CoroState.promise {T : Type} (st : CoroState T) : Promise T :=
  if st.done then
    { value := st.coro.finalValue, exception := st.coro.finalException }
  else
    { value := none, exception := none }

/-- Embeds `task<T>`: an optional coroutine handle (`none` models the null
handle of a default-constructed or moved-from task). -/
def Task (T : Type) : Type := Option (CoroState T)

/-- Embeds task creation through `promise_type::get_return_object` followed by
`initial_suspend` returning `std::suspend_always` (task.h line 61): the frame
is handed back suspended before any of the body has run, so the resume count
is zero. -/
def Task.create {T : Type} (c : Coroutine T) : Task T :=
  some { coro := c, resumed := 0 }

/-- Embeds `task<T>::await_ready` (task.h line 139):
`!handle_ || handle_.done()`. -/
def Task.await_ready {T : Type} (t : Task T) : Bool :=
  match t with
  | none => true
  | some st => st.done

/-- Embeds the task move constructor (task.h line 114):
`handle_(std::exchange(other.handle_, nullptr))`; returns
`(constructed task, source afterwards)`. -/
def Task.moveFrom {T : Type} (t : Task T) : Task T × Task T :=
  (t, none)

/-- Embeds the `while (!handle_.done()) handle_.resume();` loop of
`task<T>::get` (task.h lines 179-181), fuel-indexed; `suspensions + 1` fuel
always suffices. -/
def CoroState.driveLoop {T : Type} : Nat → CoroState T → CoroState T
  | 0, st => st
  | Nat.succ fuel, st =>
    if st.done then st else CoroState.driveLoop fuel st.resume

/-- Result of `task<T>::get`: the stored value, the rethrown stored exception,
or one of the two structured `std::runtime_error` failures. -/
inductive GetOutcome (T : Type) where
  | ok (v : T)
  | threw (e : String)
  | invalidTask
  | noResult
  deriving Repr

/-- Embeds `task<T>::get` (task.h lines 175-192): throws "invalid task" on a
null handle; otherwise resumes the coroutine until done, then rethrows a
stored exception, throws "task has no result" when the value slot is empty,
and returns the stored value otherwise. -/
def Task.get {T : Type} (t : Task T) : GetOutcome T :=
  match t with
  | none => GetOutcome.invalidTask
  | some st =>
    let fin := CoroState.driveLoop (st.coro.suspensions + 1) st
    match fin.promise.exception with
    | some e => GetOutcome.threw e
    | none =>
      match fin.promise.value with
      | some v => GetOutcome.ok v
      | none => GetOutcome.noResult

/-! ## IP addresses (src/core/ip_address.cpp) and the platform text conversion

The repository delegates text conversion to the platform's `inet_pton` /
`inet_ntop` (external collaborators); they are modelled here after the POSIX
(glibc) behaviour: strict dotted-quad decimal for IPv4, and for IPv6 hex
groups with at most one `::` compression and an optional embedded IPv4 tail,
formatted back with the longest-leftmost zero-run compressed and lower-case
hex digits. -/

/-- Splits a character list on every occurrence of one separator character,
with the same chunk semantics as `String.splitOn` (an empty input yields one
empty chunk). -/
def splitOnChar (sep : Char) : List Char → List (List Char)
  | [] => [[]]
  | c :: rest =>
    if c == sep then [] :: splitOnChar sep rest
    else
      match splitOnChar sep rest with
      | g :: gs => (c :: g) :: gs
      | [] => [[c]]

/-- Splits a character list on every non-overlapping occurrence of a double
colon, scanning left to right, with the same chunk semantics as
`String.splitOn` with separator `::`. -/
def splitOnDoubleColon : List Char → List (List Char)
  | [] => [[]]
  | ':' :: ':' :: rest => [] :: splitOnDoubleColon rest
  | c :: rest =>
    match splitOnDoubleColon rest with
    | g :: gs => (c :: g) :: gs
    | [] => [[c]]

/-- Parses one dotted-quad octet as `inet_pton(AF_INET)` does: decimal digits
only, no superfluous leading zero, value at most 255. -/
def parseOctet (cs : List Char) : Option Nat :=
  if cs.isEmpty then none
  else if !cs.all Char.isDigit then none
  else if cs.length > 1 && cs.headD '0' == '0' then none
  else
    let v := cs.foldl (fun a c => a * 10 + (c.toNat - 48)) 0
    if v > 255 then none else some v

/-- Dotted-quad parsing over a character list: exactly four octets separated
by dots; yields the four address bytes. -/
def pton4Core (cs : List Char) : Option (List Nat) :=
  match (splitOnChar '.' cs).mapM parseOctet with
  | some vs => if vs.length == 4 then some vs else none
  | none => none

/-- Models `inet_pton(AF_INET)`. -/
def pton4 (s : String) : Option (List Nat) :=
  pton4Core s.toList

/-- Numeric value of a hex digit character. -/
def hexVal (c : Char) : Nat :=
  if c.isDigit then c.toNat - 48
  else if 97 ≤ c.toNat && c.toNat ≤ 102 then c.toNat - 87
  else c.toNat - 55

/-- True for 0-9, a-f, A-F. -/
def isHexChar (c : Char) : Bool :=
  c.isDigit || (97 ≤ c.toNat && c.toNat ≤ 102) || (65 ≤ c.toNat && c.toNat ≤ 70)

/-- Parses one 16-bit IPv6 group: one to four hex digits. -/
def parseHexGroup (cs : List Char) : Option Nat :=
  if cs.isEmpty then none
  else if cs.length > 4 then none
  else if !cs.all isHexChar then none
  else some (cs.foldl (fun a c => a * 16 + hexVal c) 0)

/-- Splits one side of a `::` on single colons; an empty side has no groups. -/
def splitColon (side : List Char) : List (List Char) :=
  if side.isEmpty then [] else splitOnChar ':' side

/-- Parses a colon-separated run of hex groups (no embedded IPv4). -/
def parseHexGroups (ps : List (List Char)) : Option (List Nat) :=
  ps.mapM parseHexGroup

/-- Parses a side that may end in an embedded dotted-quad IPv4 (contributing
two 16-bit words), as `inet_pton(AF_INET6)` allows at the end of the
address. -/
def parseSideV4 (side : List Char) : Option (List Nat) :=
  match splitColon side with
  | [] => some []
  | ps =>
    match parseHexGroups ps with
    | some ws => some ws
    | none =>
      match ps.getLast? with
      | none => none
      | some lastPart =>
        match parseHexGroups ps.dropLast, pton4Core lastPart with
        | some ws, some b =>
          some (ws ++ [b.getD 0 0 * 256 + b.getD 1 0, b.getD 2 0 * 256 + b.getD 3 0])
        | _, _ => none

/-- Expands 16-bit words to bytes, big-endian. -/
def wordsToBytes : List Nat → List Nat
  | [] => []
  | w :: rest => (w / 256) :: (w % 256) :: wordsToBytes rest

/-- Models `inet_pton(AF_INET6)`: at most one `::`, eight 16-bit words in
total, an embedded IPv4 tail allowed only at the end; yields the sixteen
address bytes. -/
def pton6 (s : String) : Option (List Nat) :=
  match splitOnDoubleColon s.toList with
  | [whole] =>
    match parseSideV4 whole with
    | some ws => if ws.length == 8 then some (wordsToBytes ws) else none
    | none => none
  | [l, r] =>
    match parseHexGroups (splitColon l), parseSideV4 r with
    | some lw, some rw =>
      if lw.length + rw.length ≤ 7 then
        some (wordsToBytes (lw ++ List.replicate (8 - (lw.length + rw.length)) 0 ++ rw))
      else none
    | _, _ => none
  | _ => none

/-- Models `inet_ntop(AF_INET)`: dotted-quad decimal over the four bytes. -/
def ntop4 (b : List Nat) : String :=
  match b.map (fun n => Nat.repr n) with
  | [] => ""
  | s :: rest => rest.foldl (fun acc t => acc ++ "." ++ t) s

/-- Packs bytes into 16-bit words, big-endian. -/
def bytesToWords : List Nat → List Nat
  | b0 :: b1 :: rest => (b0 * 256 + b1) :: bytesToWords rest
  | _ => []

/-- Length of the run of zero words starting at index `i`. -/
def runLenAt (ws : List Nat) (i : Nat) : Nat :=
  ((ws.drop i).takeWhile (fun w => w == 0)).length

/-- The longest (leftmost on ties) run of zero words of length at least two:
base index and length, as `inet_ntop(AF_INET6)` selects for `::`
compression. -/
def bestZeroRun (ws : List Nat) : Option (Nat × Nat) :=
  let cands := (List.range ws.length).map (fun i => (i, runLenAt ws i))
  let best := cands.foldl (fun acc p => if p.2 > acc.2 then p else acc) (0, 0)
  if 2 ≤ best.2 then some best else none

/-- True when index `j` lies inside the selected zero run. -/
def inZeroRun (best : Option (Nat × Nat)) (j : Nat) : Bool :=
  match best with
  | some (b, l) => decide (b ≤ j) && decide (j < b + l)
  | none => false

/-- The word-emission loop of `inet_ntop(AF_INET6)`: emits `:`-separated
lower-case hex words, the selected zero run as an empty gap, and the embedded
IPv4 tail when the address calls for it. -/
def ntop6_go (bytes ws : List Nat) (best : Option (Nat × Nat)) (v4 : Bool) :
    Nat → Nat → String → String
  | 0, _, acc => acc
  | Nat.succ fuel, i, acc =>
    if inZeroRun best i then
      ntop6_go bytes ws best v4 fuel (i + 1)
        (if i == (best.map Prod.fst).getD 0 then acc ++ ":" else acc)
    else
      let acc2 := if i != 0 then acc ++ ":" else acc
      if i == 6 && v4 then acc2 ++ ntop4 (bytes.drop 12)
      else
        ntop6_go bytes ws best v4 fuel (i + 1)
          (acc2 ++ String.mk (Nat.toDigits 16 (ws.getD i 0)))

/-- Models `inet_ntop(AF_INET6)` over the sixteen address bytes. -/
def ntop6 (bytes : List Nat) : String :=
  let ws := bytesToWords bytes
  let best := bestZeroRun ws
  let v4 :=
    match best with
    | some (b, l) =>
      b == 0 &&
        (l == 6 || (l == 7 && ws.getD 7 0 != 1) || (l == 5 && ws.getD 5 0 == 65535))
    | none => false
  let core := ntop6_go bytes ws best v4 8 0 ""
  match best with
  | some (b, l) => if b + l == 8 then core ++ ":" else core
  | none => core

/-- Embeds `net::detail::IpAddress`: the discriminant plus the stored address
bytes. -/
inductive IpAddress where
  | v4 (bytes : List Nat)
  | v6 (bytes : List Nat)
  deriving DecidableEq, Repr

/-- Embeds the `IpAddress(const std::string&)` constructor (ip_address.cpp
lines 13-27): try IPv4 first, then IPv6; `none` models the thrown
`std::invalid_argument`. -/
def IpAddress.fromString (s : String) : Option IpAddress :=
  match pton4 s with
  | some b => some (IpAddress.v4 b)
  | none =>
    match pton6 s with
    | some b => some (IpAddress.v6 b)
    | none => none

/-! ## Endpoint (include/net/core/endpoint.h, src/core/endpoint.cpp) -/

/-- Address-family constant AF_INET (Linux value 2). -/
def AF_INET : Nat := 2

/-- Address-family constant AF_INET6 (Linux value 10). -/
def AF_INET6 : Nat := 10

/-- Size of sockaddr_in on Linux. -/
def sizeof_sockaddr_in : Nat := 16

/-- Size of sockaddr_in6 on Linux. -/
def sizeof_sockaddr_in6 : Nat := 28

/-- The `sockaddr_storage` buffer of an endpoint: an IPv4 record, an IPv6
record, or zeroed storage under any other `ss_family` value. -/
inductive SockStorage where
  | v4 (port : Nat) (addr : List Nat)
  | v6 (port : Nat) (addr : List Nat)
  | other (family : Nat)
  deriving DecidableEq, Repr

/-- The `ss_family` field of the storage. -/
def SockStorage.family : SockStorage → Nat
  | SockStorage.v4 _ _ => AF_INET
  | SockStorage.v6 _ _ => AF_INET6
  | SockStorage.other f => f

/-- The port field read back through `ntohs` (`sin_port` for IPv4,
`sin6_port` for IPv6; zeroed storage reads as 0). -/
def SockStorage.portField : SockStorage → Nat
  | SockStorage.v4 p _ => p
  | SockStorage.v6 p _ => p
  | SockStorage.other _ => 0

/-- The stored address bytes (`sin_addr` / `sin6_addr`). -/
def SockStorage.addrBytes : SockStorage → List Nat
  | SockStorage.v4 _ b => b
  | SockStorage.v6 _ b => b
  | SockStorage.other _ => []

/-- Embeds `net::Endpoint`: the storage buffer plus the length field. -/
structure Endpoint where
  storage : SockStorage
  size : Nat
  deriving DecidableEq, Repr

/-- Embeds the `Endpoint(const IpAddress&, uint16_t)` constructor
(endpoint.cpp lines 14-32): fills a sockaddr_in or sockaddr_in6 according to
the address type and sets the length accordingly.  The port parameter is a
`uint16_t`, hence the reduction modulo 2^16. -/
def Endpoint.ofIp (ip : IpAddress) (port : Nat) : Endpoint :=
  match ip with
  | IpAddress.v4 b =>
    { storage := SockStorage.v4 (port % 65536) b, size := sizeof_sockaddr_in }
  | IpAddress.v6 b =>
    { storage := SockStorage.v6 (port % 65536) b, size := sizeof_sockaddr_in6 }

/-- Embeds the `Endpoint(const std::string&, uint16_t)` constructor
(endpoint.cpp lines 34-35); `none` models the `std::invalid_argument` thrown
by the `IpAddress` constructor. -/
def Endpoint.ofString (s : String) (port : Nat) : Option Endpoint :=
  (IpAddress.fromString s).map (fun ip => Endpoint.ofIp ip port)

/-- Embeds `Endpoint::port` (endpoint.cpp lines 37-47): branch on `ss_family`,
returning 0 for any family other than AF_INET / AF_INET6. -/
def Endpoint.port (ep : Endpoint) : Nat :=
  if ep.storage.family == AF_INET then ep.storage.portField
  else if ep.storage.family == AF_INET6 then ep.storage.portField
  else 0

/-- Errors thrown by `Endpoint::to_string`. -/
inductive EndpointError where
  | runtimeError (msg : String)
  | logicError (msg : String)
  deriving DecidableEq, Repr

/-- Embeds `Endpoint::to_string` (endpoint.cpp lines 49-76): `ip:port` for
AF_INET, `[ipv6]:port` for AF_INET6, and a thrown `std::logic_error` for any
other family.  (The `inet_ntop` failure branches cannot fire here because the
modelled conversion is total.) -/
def Endpoint.to_string (ep : Endpoint) : Except EndpointError String :=
  if ep.storage.family == AF_INET then
    Except.ok (ntop4 ep.storage.addrBytes ++ ":" ++ Nat.repr ep.storage.portField)
  else if ep.storage.family == AF_INET6 then
    Except.ok ("[" ++ ntop6 ep.storage.addrBytes ++ "]:" ++ Nat.repr ep.storage.portField)
  else
    Except.error (EndpointError.logicError "Unknown address family in Endpoint")

/-! ## Theorems -/

/-- A listening socket with IPv6 address family (concrete instance used in the
accept counterexample). -/
def v6Listener : Socket :=
  { handle := { value := 3 }
    address_family := AddressFamily.IPV6
    socket_type := SockKind.Stream
    protocol_type := ProtocolType.TCP
    blocking := BlockingType.Blocking
    inheritable := InheritableType.Inheritable }

/-- C7: after move-assignment `b = move(a)` the source is invalid and the
target carries a's native handle and all of a's configuration flags (address
family, type, protocol, blocking mode, inheritability); the assignment first
runs `close()` on the target, passing the target's previously held descriptor
to the OS close call.  Move-construction likewise empties the source and
transfers the handle. -/
theorem socket_move_transfers_ownership (a b : Socket) :
    ((Socket.moveAssign b a).2.1).is_valid = false ∧
    ((Socket.moveAssign b a).1).native_handle = a.native_handle ∧
    ((Socket.moveAssign b a).1).address_family = a.address_family ∧
    ((Socket.moveAssign b a).1).socket_type = a.socket_type ∧
    ((Socket.moveAssign b a).1).protocol_type = a.protocol_type ∧
    ((Socket.moveAssign b a).1).blocking = a.blocking ∧
    ((Socket.moveAssign b a).1).inheritable = a.inheritable ∧
    (Socket.moveAssign b a).2.2 = [b.native_handle] ∧
    ((Socket.moveConstruct a).2).is_valid = false ∧
    ((Socket.moveConstruct a).1).native_handle = a.native_handle := by
  refine ⟨?_, rfl, rfl, rfl, rfl, rfl, rfl, rfl, ?_, rfl⟩ <;>
    simp [Socket.moveAssign, Socket.moveConstruct, Socket.is_valid,
      SocketDescriptorHandle.isValid, SocketDescriptorHandle.releaseHandle]

/-- C6: `TcpAcceptor::listen(5)` does not hand the argument 5 to the
underlying socket's listen call; it hands SOMAXCONN (the code ignores the
backlog parameter), while the call through the default argument does hand
SOMAXCONN as the claim's second half states. -/
theorem acceptor_listen_ignores_backlog :
    TcpAcceptor.listen nbSocket 5 = Except.ok SOMAXCONN ∧
    (SOMAXCONN == 5) = false ∧
    TcpAcceptor.listen nbSocket TcpAcceptor.listen_default_backlog =
      Except.ok SOMAXCONN ∧
    TcpAcceptor.listen_default_backlog = SOMAXCONN := by
  exact ⟨rfl, rfl, rfl, rfl⟩

/-- C4: on a listener whose address family is IPV6, a successful accept
returns a socket advertised as IPV4 — the family is not inherited from the
listener (the other parts of the claim hold: interrupted is retried,
would-block yields the invalid-sentinel empty socket, blocking mode is
non-blocking, inheritability is the listener's). -/
theorem accept_advertises_ipv4_for_v6_listener :
    TcpSocket.accept v6Listener [AcceptSysResult.ok 7] =
      some (Except.ok
        { handle := { value := 7 }
          address_family := AddressFamily.IPV4
          socket_type := SockKind.Stream
          protocol_type := ProtocolType.TCP
          blocking := BlockingType.NonBlocking
          inheritable := v6Listener.inheritable }) ∧
    v6Listener.address_family = AddressFamily.IPV6 ∧
    (AddressFamily.IPV4 == AddressFamily.IPV6) = false ∧
    TcpSocket.accept v6Listener [AcceptSysResult.err EINTR, AcceptSysResult.ok 7] =
      TcpSocket.accept v6Listener [AcceptSysResult.ok 7] ∧
    TcpSocket.accept v6Listener [AcceptSysResult.err EAGAIN] =
      some (Except.ok emptyTcpSocket) ∧
    emptyTcpSocket.is_valid = false := by
  exact ⟨rfl, rfl, rfl, rfl, rfl, rfl⟩

/-- C1: on a valid non-blocking connected socket whose receive reports
would-block (EAGAIN), one iteration of the `async_read` loop completes the
task with 0 — it does not suspend on the read-waiter — although the last
classified error is would-block: `raw_recv` maps the would-block to a zero
count and the loop's `received == 0` branch runs before the error is
classified. -/
theorem async_read_completes_zero_on_would_block :
    async_read_iter nbSocket 0 [SysResult.err EAGAIN] =
      some (ReadStep.complete 0) ∧
    is_would_block EAGAIN = true ∧
    nbSocket.blocking = BlockingType.NonBlocking := by
  exact ⟨rfl, rfl, rfl⟩

/-- C2: on a valid non-blocking connected socket with 5 bytes still to send
whose send reports would-block (EAGAIN), one iteration of the `async_write`
loop throws "connection closed" — it does not suspend on the write-waiter —
although the last classified error is would-block and the socket is not
blocking: `raw_send` maps the would-block to a zero count and the loop's
`sent == 0` branch runs before the error is classified. -/
theorem async_write_fails_on_would_block :
    async_write_iter nbSocket 5 0 [SysResult.err EAGAIN] =
      some (WriteStep.threw "connection closed") ∧
    is_would_block EAGAIN = true ∧
    nbSocket.blocking = BlockingType.NonBlocking := by
  exact ⟨rfl, rfl, rfl⟩

lemma is_interrupted_eq (e : Nat) (h : is_interrupted e = true) : e = EINTR := by
  simpa [is_interrupted] using h

lemma is_would_block_eq (e : Nat) (h : is_would_block e = true) : e = EAGAIN := by
  have h' : e = EAGAIN ∨ e = EWOULDBLOCK := by simpa [is_would_block] using h
  rcases h' with h1 | h1 <;> simpa [EAGAIN, EWOULDBLOCK] using h1

/-- C5: for raw_send and raw_recv on a valid socket, an interrupted OS result
is retried transparently with no other effect than updating errno; a
would-block result returns 0 on a non-blocking socket and is retried on a
blocking socket; a non-negative OS result is returned as the byte count (in
particular a strict zero surfaces as 0); and any other OS error raises a
system error carrying the platform code. -/
theorem raw_io_error_classification :
    (∀ (b : BlockingType) (errno e : Nat) (rest : List SysResult),
        is_interrupted e = true →
        raw_send_loop b errno (SysResult.err e :: rest) = raw_send_loop b e rest ∧
        raw_recv_loop b errno (SysResult.err e :: rest) = raw_recv_loop b e rest) ∧
    (∀ (errno e : Nat) (rest : List SysResult),
        is_would_block e = true →
        raw_send_loop BlockingType.NonBlocking errno (SysResult.err e :: rest) =
          some (Except.ok 0, e) ∧
        raw_recv_loop BlockingType.NonBlocking errno (SysResult.err e :: rest) =
          some (Except.ok 0, e)) ∧
    (∀ (errno e : Nat) (rest : List SysResult),
        is_would_block e = true →
        raw_send_loop BlockingType.Blocking errno (SysResult.err e :: rest) =
          raw_send_loop BlockingType.Blocking e rest ∧
        raw_recv_loop BlockingType.Blocking errno (SysResult.err e :: rest) =
          raw_recv_loop BlockingType.Blocking e rest) ∧
    (∀ (b : BlockingType) (errno e : Nat) (rest : List SysResult),
        is_interrupted e = false → is_would_block e = false →
        raw_send_loop b errno (SysResult.err e :: rest) =
          some (Except.error (SockError.systemError e "send() failed"), e) ∧
        raw_recv_loop b errno (SysResult.err e :: rest) =
          some (Except.error (SockError.systemError e "recv() failed"), e)) ∧
    (∀ (b : BlockingType) (errno n : Nat) (rest : List SysResult),
        raw_send_loop b errno (SysResult.ok n :: rest) = some (Except.ok n, errno) ∧
        raw_recv_loop b errno (SysResult.ok n :: rest) = some (Except.ok n, errno)) ∧
    (∀ (s : Socket) (errno : Nat) (trace : List SysResult),
        s.is_valid = true →
        raw_send s errno trace = raw_send_loop s.blocking errno trace ∧
        raw_recv s errno trace = raw_recv_loop s.blocking errno trace) := by
  refine ⟨?_, ?_, ?_, ?_, ?_, ?_⟩
  · intro b errno e rest h
    have he := is_interrupted_eq e h
    subst he
    constructor <;> simp [raw_send_loop, raw_recv_loop, is_interrupted]
  · intro errno e rest h
    have he := is_would_block_eq e h
    subst he
    constructor <;>
      simp [raw_send_loop, raw_recv_loop, is_interrupted, is_would_block,
        EINTR, EAGAIN, EWOULDBLOCK]
  · intro errno e rest h
    have he := is_would_block_eq e h
    subst he
    constructor <;>
      simp [raw_send_loop, raw_recv_loop, is_interrupted, is_would_block,
        EINTR, EAGAIN, EWOULDBLOCK]
  · intro b errno e rest h1 h2
    constructor <;> simp [raw_send_loop, raw_recv_loop, h1, h2]
  · intro b errno n rest
    constructor <;> simp [raw_send_loop, raw_recv_loop]
  · intro s errno trace h
    constructor <;> simp [raw_send, raw_recv, h]

/-- Witness for C5 at concrete inputs: an interrupted send retries, a
non-blocking would-block recv returns 0, a blocking would-block send retries,
a connection-reset (errno 104) recv raises the system error with code 104, and
a valid socket's raw_recv forwards to the loop. -/
theorem raw_io_error_classification_witness :
    raw_send_loop BlockingType.NonBlocking 0
        [SysResult.err EINTR, SysResult.err EAGAIN] =
      raw_send_loop BlockingType.NonBlocking EINTR [SysResult.err EAGAIN] ∧
    raw_recv_loop BlockingType.NonBlocking 0 [SysResult.err EAGAIN] =
      some (Except.ok 0, EAGAIN) ∧
    raw_send_loop BlockingType.Blocking 0 [SysResult.err EAGAIN, SysResult.ok 3] =
      raw_send_loop BlockingType.Blocking EAGAIN [SysResult.ok 3] ∧
    raw_recv_loop BlockingType.Blocking 0 [SysResult.err 104] =
      some (Except.error (SockError.systemError 104 "recv() failed"), 104) ∧
    raw_recv nbSocket 0 [SysResult.ok 7] =
      raw_recv_loop nbSocket.blocking 0 [SysResult.ok 7] := by
  exact ⟨(raw_io_error_classification.1 BlockingType.NonBlocking 0 EINTR _ (by decide)).1,
         (raw_io_error_classification.2.1 0 EAGAIN _ (by decide)).2,
         (raw_io_error_classification.2.2.1 0 EAGAIN _ (by decide)).1,
         (raw_io_error_classification.2.2.2.1 BlockingType.Blocking 0 104 _
           (by decide) (by decide)).2,
         (raw_io_error_classification.2.2.2.2.2 nbSocket 0 _ (by decide)).2⟩

lemma run_write_buffer_empty (ops : List ConnOp) :
    ∀ (c : TcpConnection), c.write_buffer = [] →
      (TcpConnection.run c ops).write_buffer = [] := by
  induction ops with
  | nil => intro c h; exact h
  | cons op ops ih =>
    intro c h
    rw [TcpConnection.run]
    apply ih
    cases op with
    | readSuspend h' => simpa [ConnOp.apply, TcpConnection.installReadWaiter] using h
    | writeSuspend h' => simpa [ConnOp.apply, TcpConnection.installWriteWaiter] using h
    | connectSuspend h' => simpa [ConnOp.apply, TcpConnection.installWriteWaiter] using h
    | notifyReadable =>
      cases hr : c.read_awaiting <;>
        simp [ConnOp.apply, TcpConnection.notify_readable, hr, h]
    | notifyWritable outcome =>
      simp [ConnOp.apply, TcpConnection.notify_writable, h]
    | close =>
      by_cases hc : c.closed <;> simp [ConnOp.apply, TcpConnection.doClose, hc, h]

/-- C3: `notify_writable` invoked with an empty pending-write buffer returns
the connection unchanged and resumes no continuation; and since none of the
connection's transitions — in particular the suspensions performed inside
`async_write` and `async_connect` — ever stores bytes into `write_buffer_`,
`notify_writable` on any state reachable from a freshly constructed connection
is such a no-op: a continuation suspended inside `async_write` or
`async_connect` is never resumed by it. -/
theorem notify_writable_never_resumes :
    (∀ (c : TcpConnection) (outcome : Except SockError Nat),
        c.write_buffer = [] →
        TcpConnection.notify_writable c outcome = (c, [])) ∧
    (∀ (s : Socket) (ops : List ConnOp) (outcome : Except SockError Nat),
        TcpConnection.notify_writable (TcpConnection.run (TcpConnection.make s) ops)
            outcome =
          (TcpConnection.run (TcpConnection.make s) ops, [])) := by
  have base : ∀ (c : TcpConnection) (outcome : Except SockError Nat),
      c.write_buffer = [] → TcpConnection.notify_writable c outcome = (c, []) := by
    intro c outcome h
    simp [TcpConnection.notify_writable, h]
  refine ⟨base, ?_⟩
  intro s ops outcome
  exact base _ outcome (run_write_buffer_empty ops (TcpConnection.make s) rfl)

/-- Witness for C3: on a concrete connection that suspended a write continuation
(identifier 1) inside async_write, notify_writable leaves the state unchanged
and resumes nothing. -/
theorem notify_writable_never_resumes_witness :
    TcpConnection.notify_writable
        (TcpConnection.run (TcpConnection.make nbSocket) [ConnOp.writeSuspend 1])
        (Except.ok 3) =
      (TcpConnection.run (TcpConnection.make nbSocket) [ConnOp.writeSuspend 1], []) := by
  exact notify_writable_never_resumes.2 nbSocket [ConnOp.writeSuspend 1] (Except.ok 3)

lemma driveLoop_reaches_done {T : Type} (fuel : Nat) :
    ∀ (st : CoroState T), st.coro.suspensions + 1 ≤ st.resumed + fuel →
      (CoroState.driveLoop fuel st).done = true ∧
      (CoroState.driveLoop fuel st).coro = st.coro := by
  induction fuel with
  | zero =>
    intro st h
    rw [CoroState.driveLoop]
    exact ⟨decide_eq_true (by simpa [CoroState.done] using h), rfl⟩
  | succ fuel ih =>
    intro st h
    rw [CoroState.driveLoop]
    by_cases hd : st.done
    · simp [hd]
    · simp only [hd, Bool.false_eq_true, if_false]
      have := ih st.resume (by simp [CoroState.resume]; omega)
      simpa [CoroState.resume] using this

/-- C8: for every task, the coroutine is created suspended with zero resumes
performed and an empty promise, and awaiting it is never ready at creation
(execution begins only on first await or drive); the synchronous drive `get`
resumes the coroutine to completion and then rethrows a stored exception,
returns a stored value, and throws the structured "task has no result" error
when a non-void coroutine finished without storing one; `get` on an empty task
(default-constructed, and the source of a move) throws the structured
"invalid task" error. -/
theorem task_laziness_and_get :
    (∀ (T : Type) (c : Coroutine T),
        Task.create c = some { coro := c, resumed := 0 } ∧
        Task.await_ready (Task.create c) = false ∧
        CoroState.promise { coro := c, resumed := 0 } =
          ({ value := none, exception := none } : Promise T) ∧
        Task.get (Task.create c) =
          (match c.finalException with
           | some e => GetOutcome.threw e
           | none =>
             match c.finalValue with
             | some v => GetOutcome.ok v
             | none => GetOutcome.noResult)) ∧
    (∀ (T : Type), Task.get (none : Task T) = GetOutcome.invalidTask) ∧
    (∀ (T : Type) (t : Task T),
        (Task.moveFrom t).1 = t ∧
        Task.get (Task.moveFrom t).2 = GetOutcome.invalidTask) := by
  refine ⟨?_, fun T => rfl, fun T t => ⟨rfl, rfl⟩⟩
  intro T c
  refine ⟨rfl, ?_, ?_, ?_⟩
  · simp [Task.create, Task.await_ready, CoroState.done]
  · simp [CoroState.promise, CoroState.done]
  · obtain ⟨hdone, hcoro⟩ :=
      driveLoop_reaches_done (T := T) (c.suspensions + 1)
        { coro := c, resumed := 0 } (by simp)
    show Task.get (some { coro := c, resumed := 0 }) = _
    rw [Task.get]
    simp only [CoroState.promise, hdone, hcoro, if_true]

/-- Witness for C7 at concrete sockets: moving nbSocket into v6Listener leaves
the source invalid, hands the source's descriptor to the target, and closes
the descriptor the target previously owned. -/
theorem socket_move_transfers_ownership_witness :
    ((Socket.moveAssign v6Listener nbSocket).2.1).is_valid = false ∧
    ((Socket.moveAssign v6Listener nbSocket).1).native_handle =
      nbSocket.native_handle ∧
    (Socket.moveAssign v6Listener nbSocket).2.2 = [v6Listener.native_handle] := by
  exact ⟨(socket_move_transfers_ownership nbSocket v6Listener).1,
         (socket_move_transfers_ownership nbSocket v6Listener).2.1,
         (socket_move_transfers_ownership nbSocket v6Listener).2.2.2.2.2.2.2.1⟩

/-- Witness for C8 at a concrete coroutine needing three resumes and storing
the value 42: creation leaves it not ready and the synchronous drive returns
the stored value. -/
theorem task_laziness_and_get_witness :
    Task.await_ready (Task.create
        { suspensions := 2, finalValue := some 42, finalException := none }) = false ∧
    Task.get (Task.create
        { suspensions := 2, finalValue := some 42, finalException := none }) =
      GetOutcome.ok 42 := by
  exact ⟨(task_laziness_and_get.1 Nat
            { suspensions := 2, finalValue := some 42, finalException := none }).2.1,
         (task_laziness_and_get.1 Nat
            { suspensions := 2, finalValue := some 42, finalException := none }).2.2.2⟩

/-- C9: the endpoint built from the string "127.0.0.1" and port 8080 formats
back to "127.0.0.1:8080", which contains both "127.0.0.1" and "8080" in the
shape ip:port; and every endpoint built from a string holding a valid IPv6
text form and a 16-bit port formats as the bracketed shape
`[` ++ ipv6 ++ `]:` ++ port over the formatted stored address. -/
theorem endpoint_format_round_trip :
    ((Endpoint.ofString "127.0.0.1" 8080).map Endpoint.to_string =
        some (Except.ok "127.0.0.1:8080") ∧
      "127.0.0.1".toList.IsInfix "127.0.0.1:8080".toList ∧
      "8080".toList.IsInfix "127.0.0.1:8080".toList) ∧
    (∀ (s : String) (p : Nat) (b : List Nat),
        IpAddress.fromString s = some (IpAddress.v6 b) →
        p < 65536 →
        (Endpoint.ofIp (IpAddress.v6 b) p).to_string =
          Except.ok ("[" ++ ntop6 b ++ "]:" ++ Nat.repr p)) := by
  refine ⟨⟨by rfl, by decide, by decide⟩, ?_⟩
  intro s p b _hs hp
  simp [Endpoint.ofIp, Endpoint.to_string, SockStorage.family,
    SockStorage.addrBytes, SockStorage.portField, AF_INET, AF_INET6,
    Nat.mod_eq_of_lt hp]

/-- Witness for C9 at the concrete IPv6 input "::1" with port 443: the
endpoint formats as the bracketed shape. -/
theorem endpoint_format_round_trip_witness :
    (Endpoint.ofIp (IpAddress.v6 [0,0,0,0,0,0,0,0,0,0,0,0,0,0,0,1]) 443).to_string =
      Except.ok ("[" ++ ntop6 [0,0,0,0,0,0,0,0,0,0,0,0,0,0,0,1] ++ "]:" ++
        Nat.repr 443) := by
  exact endpoint_format_round_trip.2 "::1" 443 _ (by decide) (by decide)

/-- C10: on any endpoint whose stored address family is neither AF_INET nor
AF_INET6, `port()` returns 0 and `to_string()` throws the logic error rather
than fabricating address data. -/
theorem endpoint_unknown_family (ep : Endpoint)
    (h4 : ep.storage.family ≠ AF_INET) (h6 : ep.storage.family ≠ AF_INET6) :
    ep.port = 0 ∧
    ep.to_string =
      Except.error (EndpointError.logicError "Unknown address family in Endpoint") := by
  have b4 : (ep.storage.family == AF_INET) = false := beq_eq_false_iff_ne.mpr h4
  have b6 : (ep.storage.family == AF_INET6) = false := beq_eq_false_iff_ne.mpr h6
  constructor
  · simp [Endpoint.port, b4, b6]
  · simp [Endpoint.to_string, b4, b6]

/-- Witness for C10 at a default-constructed endpoint whose zeroed storage has
family 0 (AF_UNSPEC). -/
theorem endpoint_unknown_family_witness :
    ({ storage := SockStorage.other 0, size := 128 } : Endpoint).port = 0 ∧
    ({ storage := SockStorage.other 0, size := 128 } : Endpoint).to_string =
      Except.error (EndpointError.logicError "Unknown address family in Endpoint") := by
  exact endpoint_unknown_family _ (by decide) (by decide)

end Webnet
